import Mathlib

/-!
Shallow embedding of `src/signcode.py` (the `codesigner` repository).

The script repackages every `.zip` archive of a source directory into a
destination directory, signing `.jar` entries with jarsigner and `.dll`
entries with signtool, deduplicating by the zip entry's CRC through a
process-wide cache.  External tools are modelled by an oracle `ToolEnv`
giving, for each subprocess command and current content of the file the
command operates on, the process result and the new file content.  The
filesystem of temporary files, the log of subprocess invocations and the
warnings printed are threaded through explicitly as `SignState`.
Python exceptions (`AssertionError` from `assert_external_toolresult`,
`TypeError` from mismatched call signatures) are modelled with `Except`.
-/

set_option autoImplicit false

namespace Signcode

/-- Raw file contents: a sequence of bytes. -/
abbrev Bytes := List Nat

/-! ### String helpers mirroring Python primitives -/

/-- `leadsWith n h` is true when `n` is an initial segment of `h`. -/
def leadsWith : List Char → List Char → Bool
  | [], _ => true
  | _ :: _, [] => false
  | a :: as, b :: bs => a == b && leadsWith as bs

/-- Python's substring test `needle in hay`. -/
def containsSub (hay needle : String) : Bool :=
  let h := hay.toList
  let n := needle.toList
  (List.range (h.length + 1)).any (fun i => leadsWith n (h.drop i))

/-- `pathlib.PurePath(path).name`: the final path component (text after the
last `/`). -/
def pyName (path : String) : String :=
  String.mk (((path.toList.reverse).takeWhile (fun c => c != '/')).reverse)

/-- `pathlib.PurePath(path).suffix`: the extension of the final component,
computed as in CPython's `pathlib` (`i = name.rfind('.')`; the extension is
`name[i:]` when `0 < i < len(name) - 1`, else the empty string). -/
def pySuffix (path : String) : String :=
  let cs := (pyName path).toList
  match (cs.reverse).findIdx? (fun c => c == '.') with
  | none => ""
  | some k =>
    let i := cs.length - 1 - k
    if 0 < i ∧ i < cs.length - 1 then String.mk (cs.drop i) else ""

/-- `is_java_library` (line 42): `path.suffix == '.jar'`. -/
def is_java_library (path : String) : Bool := pySuffix path == ".jar"

/-- `is_dotnet_library` (line 46): `path.suffix == '.dll'`. -/
def is_dotnet_library (path : String) : Bool := pySuffix path == ".dll"

/-! ### External tool invocations -/

/-- Outcome of `subprocess.run(..., capture_output=True)`: the exit status
and the captured standard output. -/
structure ToolResult where
  returncode : Int
  stdout : String
deriving DecidableEq, Repr

/-- The external world: for a subprocess command and the current content of
the file the command operates on, `result` gives the process outcome and
`effect` the content of that file after the process terminated (a verifier
typically leaves the file unchanged, a signer rewrites it). -/
structure ToolEnv where
  result : List String → Bytes → ToolResult
  effect : List String → Bytes → Bytes

/-- State threaded through the run: contents of the temporary files on
disk, the log of subprocess invocations, and the warnings printed. -/
structure SignState where
  fs : List (String × Bytes)
  calls : List (List String)
  warns : List String
deriving DecidableEq, Repr

/-- Read a file's bytes (missing files read as empty). -/
def fsGet : List (String × Bytes) → String → Bytes
  | [], _ => []
  | (m, b) :: rest, n => if m == n then b else fsGet rest n

/-- Write a file's bytes (most-recent-first shadowing update; nothing in
the program ever deletes a file). -/
def fsSet (fs : List (String × Bytes)) (n : String) (b : Bytes) : List (String × Bytes) :=
  (n, b) :: fs

/-- Whether a file exists on the modelled filesystem. -/
def fsHasFile : List (String × Bytes) → String → Bool
  | [], _ => false
  | (m, _) :: rest, n => m == n || fsHasFile rest n

/-- One `subprocess.run(cmd, capture_output=True)` invocation, where the
command operates on the file `fname`: returns the tool's result, logs the
call, and lets the tool rewrite the file. -/
def runTool (env : ToolEnv) (st : SignState) (cmd : List String) (fname : String) :
    ToolResult × SignState :=
  let content := fsGet st.fs fname
  (env.result cmd content,
   { st with fs := fsSet st.fs fname (env.effect cmd content),
             calls := st.calls ++ [cmd] })

/-- Python exceptions raised by the script. -/
inductive PyError where
  | assertionError (msg : String)
  | typeError (msg : String)
deriving DecidableEq, Repr

/-- The fatal message of `assert_external_toolresult` (line 35). -/
def toolErrorMsg (name : String) (r : ToolResult) : String :=
  "    ERROR: [" ++ name ++ "] signing/verifying library. OUTPUT: " ++ r.stdout

/-- The warning of `assert_external_toolresult` (line 39). -/
def toolWarnMsg (name : String) (r : ToolResult) : String :=
  "WARN [" ++ name ++ "] signing/verifying library. OUTPUT: " ++ r.stdout

/-- `assert_external_toolresult` (lines 33-39): a non-zero exit status
raises `AssertionError`; a zero status whose output lacks the expected
marker only prints a warning (returned here as the list of warnings). -/
def assert_external_toolresult (name : String) (result : ToolResult) (expected : String) :
    Except PyError (List String) :=
  if result.returncode ≠ 0 then
    Except.error (PyError.assertionError (toolErrorMsg name result))
  else if containsSub result.stdout expected then Except.ok []
  else Except.ok [toolWarnMsg name result]

/-- A `tempfile.NamedTemporaryFile(delete=False)` handle: only its `name`
is relevant after the initial write. -/
structure TempFile where
  name : String
deriving DecidableEq, Repr

/-- Proxy constant of line 22. -/
def PROXY_HOST : String := "-J-Dhttp.proxyHost=proxy.bcssksz.local"

/-- Proxy constant of line 23. -/
def PROXY_PORT : String := "-J-Dhttp.proxyPort=3128"

/-- The jarsigner signing command of lines 51-56. -/
def jarsignerSignCmd (jarsigner_path keystore_path keystore_password timestamp_url libname key_alias : String) :
    List String :=
  [jarsigner_path, "-storetype", "pkcs12", "-strict", "-keystore", keystore_path,
   "-storepass", keystore_password, "-keypass", keystore_password,
   "-tsa", timestamp_url, PROXY_HOST, PROXY_PORT, libname, key_alias]

/-- The jarsigner verification command of line 58. -/
def jarsignerVerifyCmd (jarsigner_path libname : String) : List String :=
  [jarsigner_path, "-verify", "-storetype", "pkcs12", libname]

/-- The signtool verification command of lines 64 and 72. -/
def signtoolVerifyCmd (signtool_path libname : String) : List String :=
  [signtool_path, "verify", "/pa", libname]

/-- The signtool signing command of lines 66-68 (note: the source passes
`key_alias` to the password flag `/p`). -/
def signtoolSignCmd (signtool_path keystore_path key_alias libname : String) : List String :=
  [signtool_path, "sign", "/fd", "sha256", "/f", keystore_path, "/p", key_alias, libname]

/-- The signtool timestamping command of line 70. -/
def signtoolTimestampCmd (signtool_path timestamp_url libname : String) : List String :=
  [signtool_path, "timestamp", "/t", timestamp_url, libname]

/-- `sign_java_library` (lines 50-60): run the jarsigner signing command on
the temp file, check the result (marker "jar signed"), run the verification
command, check the result (marker "jar verified"), and return the file
handle.  Exceptions from the checks propagate. -/
def sign_java_library (env : ToolEnv) (st : SignState) (lib : TempFile) (name : String)
    (jarsigner_path keystore_path key_alias keystore_password timestamp_url : String) :
    SignState × Except PyError TempFile :=
  let r₁ := runTool env st
    (jarsignerSignCmd jarsigner_path keystore_path keystore_password timestamp_url lib.name key_alias)
    lib.name
  match assert_external_toolresult name r₁.1 "jar signed" with
  | Except.error e => (r₁.2, Except.error e)
  | Except.ok w₁ =>
    let st₁ := { r₁.2 with warns := r₁.2.warns ++ w₁ }
    let r₂ := runTool env st₁ (jarsignerVerifyCmd jarsigner_path lib.name) lib.name
    match assert_external_toolresult name r₂.1 "jar verified" with
    | Except.error e => (r₂.2, Except.error e)
    | Except.ok w₂ => ({ r₂.2 with warns := r₂.2.warns ++ w₂ }, Except.ok lib)

/-- The warning of line 75. -/
def alreadySignedWarning (name : String) : String :=
  "WARN [" ++ name ++ "] Library appears to be already signed, it will not be signed again"

/-- `sign_dotnet_library` (lines 63-76): probe with `signtool verify`; on a
non-zero probe status run sign, timestamp and verify, each checked with an
empty expected marker; on a zero probe status only print a warning and
return the file unchanged. -/
def sign_dotnet_library (env : ToolEnv) (st : SignState) (lib : TempFile) (name : String)
    (signtool_path keystore_path key_alias timestamp_url : String) :
    SignState × Except PyError TempFile :=
  let r₁ := runTool env st (signtoolVerifyCmd signtool_path lib.name) lib.name
  if r₁.1.returncode ≠ 0 then
    let r₂ := runTool env r₁.2 (signtoolSignCmd signtool_path keystore_path key_alias lib.name) lib.name
    match assert_external_toolresult name r₂.1 "" with
    | Except.error e => (r₂.2, Except.error e)
    | Except.ok w₂ =>
      let st₂ := { r₂.2 with warns := r₂.2.warns ++ w₂ }
      let r₃ := runTool env st₂ (signtoolTimestampCmd signtool_path timestamp_url lib.name) lib.name
      match assert_external_toolresult name r₃.1 "" with
      | Except.error e => (r₃.2, Except.error e)
      | Except.ok w₃ =>
        let st₃ := { r₃.2 with warns := r₃.2.warns ++ w₃ }
        let r₄ := runTool env st₃ (signtoolVerifyCmd signtool_path lib.name) lib.name
        match assert_external_toolresult name r₄.1 "" with
        | Except.error e => (r₄.2, Except.error e)
        | Except.ok w₄ => ({ r₄.2 with warns := r₄.2.warns ++ w₄ }, Except.ok lib)
  else
    ({ r₁.2 with warns := r₁.2.warns ++ [alreadySignedWarning name] }, Except.ok lib)

/-- Number of parameters in the declaration of `sign_dotnet_library`
(line 63): `lib, name, signtool_path, keystore_path, key_alias,
timestamp_url`. -/
def sign_dotnet_library_paramCount : Nat := 6

/-- Number of positional arguments at the call of `sign_dotnet_library` on
line 146: `library, zipEntryPath.name, args.signtool, args.keystore,
args.alias, keystorePassword, args.tsa`. -/
def sign_dotnet_library_callArgCount : Nat := 7

/-- Message of the `TypeError` raised by the arity mismatch at line 146. -/
def dotnetArityMsg : String :=
  "sign_dotnet_library takes 6 positional arguments but 7 were given"

/-- Python call semantics for the line-146 call of `sign_dotnet_library`:
positional arguments are matched against the declared parameters; a count
mismatch raises `TypeError` before the function body runs (so no subprocess
is started).  Were the counts equal, the first six arguments would bind the
six parameters positionally. -/
def call_sign_dotnet_library (env : ToolEnv) (st : SignState) (lib : TempFile)
    (name signtool_path keystore_path key_alias keystore_password timestamp_url : String) :
    SignState × Except PyError TempFile :=
  if sign_dotnet_library_callArgCount = sign_dotnet_library_paramCount then
    sign_dotnet_library env st lib name signtool_path keystore_path key_alias keystore_password
  else
    (st, Except.error (PyError.typeError dotnetArityMsg))

/-! ### Archive entries and the transform loop -/

/-- A zip entry as exposed by `zipfile`: its stored name, uncompressed
content and the CRC recorded in the archive. -/
structure ZipEntry where
  filename : String
  content : Bytes
  CRC : Nat
deriving DecidableEq, Repr

/-- `ZipInfo.is_dir()`: the stored name ends with a slash. -/
def ZipEntry.is_dir (e : ZipEntry) : Bool := e.filename.toList.getLast? == some '/'

/-- The run's configuration after argument parsing and the password
prompt (lines 80-111). -/
structure Config where
  jarsigner : String
  signtool : String
  keystore : String
  keyAlias : String
  password : String
  tsa : String

/-- State of the entry loop for one archive: the tool state, the CRC cache
(line 126), a counter providing fresh temporary file names, the entries
written so far to the destination archive, and the two counters of lines
132-133. -/
structure EntryState where
  sign : SignState
  cache : List (Nat × TempFile)
  tmp : Nat
  out : List (String × Bytes)
  cacheCounter : Nat
  signedCounter : Nat
deriving DecidableEq, Repr

/-- Dictionary lookup `cache[CRC]` / `CRC in cache`. -/
def cacheGet : List (Nat × TempFile) → Nat → Option TempFile
  | [], _ => none
  | (k, v) :: rest, n => if k == n then some v else cacheGet rest n

/-- Name of the `n`-th `NamedTemporaryFile` of the run. -/
def freshTempName (n : Nat) : String := "tmp" ++ toString n

/-- The body of the entry loop (lines 135-151) for one `zipEntry`:
directory entries are skipped; signable entries (`.jar` or `.dll`) are
served from the cache or materialized to a fresh temp file and signed
(note that the `.dll` branch goes through the faulty 7-argument call of
line 146), the resulting file's bytes being written to the destination
under the original entry name; all other entries are copied verbatim. -/
def processEntry (env : ToolEnv) (cfg : Config) (es : EntryState) (e : ZipEntry) :
    EntryState × Except PyError Unit :=
  if e.is_dir then (es, Except.ok ())
  else if is_java_library e.filename || is_dotnet_library e.filename then
    match cacheGet es.cache e.CRC with
    | some library =>
      let es₁ := { es with cacheCounter := es.cacheCounter + 1 }
      ({ es₁ with out := es₁.out ++ [(e.filename, fsGet es₁.sign.fs library.name)] },
       Except.ok ())
    | none =>
      let library : TempFile := ⟨freshTempName es.tmp⟩
      let st₀ : SignState := { es.sign with fs := fsSet es.sign.fs library.name e.content }
      let call :=
        if is_java_library e.filename then
          sign_java_library env st₀ library (pyName e.filename)
            cfg.jarsigner cfg.keystore cfg.keyAlias cfg.password cfg.tsa
        else
          call_sign_dotnet_library env st₀ library (pyName e.filename)
            cfg.signtool cfg.keystore cfg.keyAlias cfg.password cfg.tsa
      match call with
      | (st₁, Except.error err) =>
        ({ es with sign := st₁, tmp := es.tmp + 1 }, Except.error err)
      | (st₁, Except.ok lib₂) =>
        ({ es with sign := st₁, tmp := es.tmp + 1,
                   cache := (e.CRC, lib₂) :: es.cache,
                   signedCounter := es.signedCounter + 1,
                   out := es.out ++ [(e.filename, fsGet st₁.fs lib₂.name)] },
         Except.ok ())
  else
    ({ es with out := es.out ++ [(e.filename, e.content)] }, Except.ok ())

/-- The entry loop of line 134: process entries in their stored order,
stopping at the first exception. -/
def processEntries (env : ToolEnv) (cfg : Config) : EntryState → List ZipEntry →
    EntryState × Except PyError Unit
  | es, [] => (es, Except.ok ())
  | es, e :: rest =>
    match processEntry env cfg es e with
    | (es₁, Except.ok _) => processEntries env cfg es₁ rest
    | (es₁, Except.error err) => (es₁, Except.error err)

/-! ### Opening the destination archive and the batch loop -/

/-- The keyword parameters accepted by `zipfile.ZipFile.__init__` in
CPython: `file, mode, compression, allowZip64, compresslevel,
strict_timestamps, metadata_encoding`. -/
def zipFileInitKeywords : List String :=
  ["file", "mode", "compression", "allowZip64", "compresslevel",
   "strict_timestamps", "metadata_encoding"]

/-- The keyword arguments the source passes when constructing the
destination `ZipFile` at line 131: `mode='x'`, `mpression=...`,
`compresslevel=9`. -/
def targetZipCallKeywords : List String := ["mode", "mpression", "compresslevel"]

/-- Message of the `TypeError` raised at line 131. -/
def zipfileKwargMsg : String :=
  "ZipFile.__init__ got an unexpected keyword argument mpression"

/-- Python call semantics for the `ZipFile` construction at line 131: an
unexpected keyword argument raises `TypeError` before a file is created. -/
def openTargetZip : Except PyError Unit :=
  if targetZipCallKeywords.all (fun k => zipFileInitKeywords.contains k) then Except.ok ()
  else Except.error (PyError.typeError zipfileKwargMsg)

/-- Run-level state: tool state, the process-wide cache and temp counter,
the aggregate counter of line 127, and the destination archives committed
to disk (archive file name paired with its entries). -/
structure RunState where
  sign : SignState
  cache : List (Nat × TempFile)
  tmp : Nat
  globalCacheCounter : Nat
  dstFiles : List (String × List (String × Bytes))
deriving DecidableEq, Repr

/-- Fresh entry-loop state at the start of one archive (lines 132-133). -/
def initEntryState (rs : RunState) : EntryState :=
  { sign := rs.sign, cache := rs.cache, tmp := rs.tmp,
    out := [], cacheCounter := 0, signedCounter := 0 }

/-- Lines 132-153: the body of the `with` statement for one source archive
together with the context-manager exit.  `ZipFile.close` runs on every exit
path of a `with` block, finalizing the central directory, so the
destination archive is committed with the entries written so far even when
an exception is propagating; the aggregation of line 152 runs only on
normal completion. -/
def archiveWithBody (env : ToolEnv) (cfg : Config) (rs : RunState) (name : String)
    (entries : List ZipEntry) : RunState × Except PyError Unit :=
  match processEntries env cfg (initEntryState rs) entries with
  | (es, Except.ok _) =>
    ({ rs with sign := es.sign, cache := es.cache, tmp := es.tmp,
               globalCacheCounter := rs.globalCacheCounter + es.cacheCounter,
               dstFiles := rs.dstFiles ++ [(name, es.out)] },
     Except.ok ())
  | (es, Except.error err) =>
    ({ rs with sign := es.sign, cache := es.cache, tmp := es.tmp,
               dstFiles := rs.dstFiles ++ [(name, es.out)] },
     Except.error err)

/-- One iteration of the archive loop (lines 129-153): open the source
archive, attempt to open the destination archive (line 131, which raises
`TypeError` before any destination file exists), then run the entry loop
inside the `with` block. -/
def processArchive (env : ToolEnv) (cfg : Config) (rs : RunState) (name : String)
    (entries : List ZipEntry) : RunState × Except PyError Unit :=
  match openTargetZip with
  | Except.error err => (rs, Except.error err)
  | Except.ok _ => archiveWithBody env cfg rs name entries

/-- The state at line 126-127: empty cache, zero counters, nothing written. -/
def initialRunState : RunState :=
  { sign := { fs := [], calls := [], warns := [] },
    cache := [], tmp := 0, globalCacheCounter := 0, dstFiles := [] }

/-- The archive loop of lines 129-153: archives are processed in glob
order; an uncaught exception terminates the loop (and the process). -/
def batchGo (env : ToolEnv) (cfg : Config) : RunState → List (String × List ZipEntry) →
    RunState × Except PyError Unit
  | rs, [] => (rs, Except.ok ())
  | rs, a :: rest =>
    match processArchive env cfg rs a.1 a.2 with
    | (rs₁, Except.ok _) => batchGo env cfg rs₁ rest
    | (rs₁, Except.error err) => (rs₁, Except.error err)

/-- A whole batch run from line 126: the per-run cache and counters are
created, then every `*.zip` of the source directory (here: the list of
archives, each a file name with its entries) is processed. -/
def runBatch (env : ToolEnv) (cfg : Config) (archives : List (String × List ZipEntry)) :
    RunState × Except PyError Unit :=
  batchGo env cfg initialRunState archives

/-! ### Start-up destination check (lines 107-108) -/

/-- The warning text of line 108. -/
def dstNotEmptyWarnMsg (dstPath : String) : String :=
  "WARN destination folder does not seem to be empty [" ++ dstPath ++ "]"

/-- Lines 107-108: the start-up emptiness check.  The condition reads the
listing of the SOURCE directory (`os.listdir(args.src)`) while the printed
message names the destination folder; only a warning is printed and
execution continues.  The destination listing is never consulted. -/
def startupEmptinessCheck (srcListing : List String) (dstPath : String)
    (dstListing : List String) : List String × Except PyError Unit :=
  if srcListing.length > 0 then ([dstNotEmptyWarnMsg dstPath], Except.ok ())
  else ([], Except.ok ())

/-! ### Concrete fixtures used to evaluate the model -/

/-- An environment in which every tool call succeeds, reports both jarsigner
success markers, and leaves file contents unchanged. -/
def envAllOk : ToolEnv :=
  { result := fun _ _ => { returncode := 0, stdout := "jar signed and jar verified" },
    effect := fun _ c => c }

/-- An environment in which every tool call fails with exit status 1. -/
def envJarFails : ToolEnv :=
  { result := fun _ _ => { returncode := 1, stdout := "boom" },
    effect := fun _ c => c }

/-- An environment for the signtool protocol: `verify` succeeds exactly on
files whose first byte is 1, `sign` prepends the byte 1 (so the artifact
verifies afterwards), and every non-verify command reports status 0. -/
def envDotnet : ToolEnv :=
  { result := fun cmd c =>
      if cmd.getD 1 "" == "verify" then
        (if c.getD 0 0 == 1 then { returncode := 0, stdout := "" }
         else { returncode := 1, stdout := "" })
      else { returncode := 0, stdout := "" },
    effect := fun cmd c => if cmd.getD 1 "" == "sign" then 1 :: c else c }

/-- A concrete run configuration. -/
def cfg0 : Config :=
  { jarsigner := "jarsigner", signtool := "signtool", keystore := "ks.p12",
    keyAlias := "codesigning", password := "pw", tsa := "http://tsa" }

/-- A signable jar entry. -/
def jarA : ZipEntry := { filename := "lib/a.jar", content := [1, 2, 3], CRC := 111 }

/-- A second jar entry with the same content and CRC under another path. -/
def jarB : ZipEntry := { filename := "copy/a.jar", content := [1, 2, 3], CRC := 111 }

/-- A non-signable file entry. -/
def txtE : ZipEntry := { filename := "readme.txt", content := [9], CRC := 7 }

/-- A directory entry. -/
def dirE : ZipEntry := { filename := "docs/", content := [], CRC := 0 }

/-- A signable dll entry. -/
def dllE : ZipEntry := { filename := "bin/s.dll", content := [4], CRC := 222 }

/-- A tool state holding one unsigned temporary file. -/
def dotnetProbeState : SignState := { fs := [("tmp0", [5])], calls := [], warns := [] }

/-! ### Specification predicates -/

/-- What the entry loop writes for one non-directory entry: the pair keeps
the entry's stored name, and a non-signable entry's bytes are copied
verbatim. -/
def entryWrites (e : ZipEntry) (p : String × Bytes) : Prop :=
  p.1 = e.filename ∧
    (is_java_library e.filename = false → is_dotnet_library e.filename = false →
      p.2 = e.content)

/-- `b` is `a` with zero or more files written on top (no file is ever
deleted). -/
def FsExtends (a b : List (String × Bytes)) : Prop := ∃ l, b = l ++ a


/-! ### Helper lemmas -/

theorem fsExtends_refl (a : List (String × Bytes)) : FsExtends a a := ⟨[], rfl⟩

theorem fsExtends_trans {a b c : List (String × Bytes)} (h₁ : FsExtends a b)
    (h₂ : FsExtends b c) : FsExtends a c := by
  obtain ⟨l, rfl⟩ := h₁
  obtain ⟨m, rfl⟩ := h₂
  exact ⟨m ++ l, (List.append_assoc m l a).symm⟩

theorem sign_java_library_fs (env : ToolEnv) (st : SignState) (lib : TempFile)
    (name p₁ p₂ p₃ p₄ p₅ : String) :
    FsExtends st.fs (sign_java_library env st lib name p₁ p₂ p₃ p₄ p₅).1.fs := by
  unfold sign_java_library runTool fsSet
  dsimp only
  split
  · exact ⟨[_], rfl⟩
  · split
    · exact ⟨[_, _], rfl⟩
    · exact ⟨[_, _], rfl⟩

theorem sign_dotnet_library_fs (env : ToolEnv) (st : SignState) (lib : TempFile)
    (name p₁ p₂ p₃ p₄ : String) :
    FsExtends st.fs (sign_dotnet_library env st lib name p₁ p₂ p₃ p₄).1.fs := by
  unfold sign_dotnet_library runTool fsSet
  dsimp only
  split
  · split
    · exact ⟨[_, _], rfl⟩
    · split
      · exact ⟨[_, _, _], rfl⟩
      · split
        · exact ⟨[_, _, _, _], rfl⟩
        · exact ⟨[_, _, _, _], rfl⟩
  · exact ⟨[_], rfl⟩

theorem call_sign_dotnet_library_eq (env : ToolEnv) (st : SignState) (lib : TempFile)
    (name p₁ p₂ p₃ p₄ p₅ : String) :
    call_sign_dotnet_library env st lib name p₁ p₂ p₃ p₄ p₅ =
      (st, Except.error (PyError.typeError dotnetArityMsg)) := rfl

theorem processEntry_fs (env : ToolEnv) (cfg : Config) (es : EntryState) (e : ZipEntry) :
    FsExtends es.sign.fs (processEntry env cfg es e).1.sign.fs := by
  unfold processEntry
  cases hd : e.is_dir with
  | true => exact fsExtends_refl _
  | false =>
    simp only [Bool.false_eq_true, if_false]
    cases hs : (is_java_library e.filename || is_dotnet_library e.filename) with
    | false => simp only [Bool.false_eq_true, if_false]; exact fsExtends_refl _
    | true =>
      simp only [if_true]
      cases hc : cacheGet es.cache e.CRC with
      | some library => exact fsExtends_refl _
      | none =>
        simp only []
        cases hj : is_java_library e.filename with
        | true =>
          simp only [if_true]
          have h₀ : FsExtends es.sign.fs
              (fsSet es.sign.fs (freshTempName es.tmp) e.content) := ⟨[_], rfl⟩
          have h₁ := sign_java_library_fs env
            { es.sign with fs := fsSet es.sign.fs (freshTempName es.tmp) e.content }
            ⟨freshTempName es.tmp⟩ (pyName e.filename)
            cfg.jarsigner cfg.keystore cfg.keyAlias cfg.password cfg.tsa
          split <;> rename_i st₁ x heq <;> rw [heq] at h₁ <;>
            exact fsExtends_trans h₀ h₁
        | false =>
          simp only [Bool.false_eq_true, if_false, call_sign_dotnet_library_eq]
          exact ⟨[_], rfl⟩

theorem processEntries_fs (env : ToolEnv) (cfg : Config) (entries : List ZipEntry) :
    ∀ es : EntryState, FsExtends es.sign.fs (processEntries env cfg es entries).1.sign.fs := by
  induction entries with
  | nil => intro es; exact fsExtends_refl _
  | cons e rest ih =>
    intro es
    unfold processEntries
    cases hpe : processEntry env cfg es e with
    | mk es₁ r =>
      have h₁ : FsExtends es.sign.fs es₁.sign.fs := by
        have := processEntry_fs env cfg es e
        rw [hpe] at this
        exact this
      cases r with
      | ok _ => exact fsExtends_trans h₁ (ih es₁)
      | error err => exact h₁


/-! ### Claim theorems -/

/-- C2: for every run whose source directory contains at least one `.zip`
archive, opening the destination archive raises `TypeError` (the `ZipFile`
constructor receives the misspelled keyword argument `mpression`), so the
run aborts with the state of line 127 intact: no destination archive is
created, no subprocess is invoked, no entry is processed. -/
theorem c2_first_archive_raises_type_error (env : ToolEnv) (cfg : Config)
    (a : String × List ZipEntry) (rest : List (String × List ZipEntry)) :
    runBatch env cfg (a :: rest) =
      (initialRunState, Except.error (PyError.typeError zipfileKwargMsg)) ∧
    initialRunState.dstFiles = [] ∧ initialRunState.sign.calls = [] :=
  ⟨rfl, rfl, rfl⟩

/-- C1: the dedup claim fails on the code.  The input archive `a.zip`
holds two signable `.jar` entries with identical content and CRC, yet the
run raises `TypeError` at the destination-archive open of line 131 and the
external signing tool is invoked zero times, not exactly once. -/
theorem c1_dedup_claim_fails_no_signing_ever :
    jarA.CRC = jarB.CRC ∧
    is_java_library jarA.filename = true ∧
    is_java_library jarB.filename = true ∧
    runBatch envAllOk cfg0 [("a.zip", [jarA, jarB])] =
      (initialRunState, Except.error (PyError.typeError zipfileKwargMsg)) ∧
    initialRunState.sign.calls = [] :=
  ⟨rfl, rfl, rfl, rfl, rfl⟩

/-- C9 counterexample: with an empty source directory and a destination
directory containing a leftover file, start-up neither raises an error nor
even warns — the claimed fatal `ConfigurationError` on a non-empty
destination does not exist. -/
theorem c9_nonempty_dst_no_abort :
    startupEmptinessCheck [] "signed_zips" ["leftover.zip"] = ([], Except.ok ()) :=
  rfl

/-- C9 amended: the start-up check of lines 107-108 tests the SOURCE
directory's listing, never aborts (its outcome is always success), ignores
the destination listing entirely, and on a non-empty source prints a
warning that names the destination folder. -/
theorem c9_src_checked_warn_only (src : List String) (dstPath : String)
    (dst dst' : List String) :
    (startupEmptinessCheck src dstPath dst).2 = Except.ok () ∧
    startupEmptinessCheck src dstPath dst = startupEmptinessCheck src dstPath dst' ∧
    (src ≠ [] → (startupEmptinessCheck src dstPath dst).1 = [dstNotEmptyWarnMsg dstPath]) := by
  unfold startupEmptinessCheck
  refine ⟨?_, rfl, ?_⟩
  · split <;> rfl
  · intro h
    rw [if_pos (List.length_pos.mpr h)]

/-- Witness for the C9 amended theorem at a concrete non-empty source. -/
theorem c9_src_checked_warn_only_witness :
    (startupEmptinessCheck ["a.zip"] "signed_zips" ["x"]).1 =
      [dstNotEmptyWarnMsg "signed_zips"] :=
  (c9_src_checked_warn_only ["a.zip"] "signed_zips" ["x"] []).2.2 (by decide)

/-- C10 counterexample: the transform step for a `.jar` entry completes
successfully, yet its scoped temporary file `tmp0` still exists afterwards
— it is created with `delete=False` and never removed. -/
theorem c10_tempfile_survives_step :
    (processEntries envAllOk cfg0 (initEntryState initialRunState) [jarA]).2 =
      Except.ok () ∧
    fsHasFile (processEntries envAllOk cfg0 (initEntryState initialRunState) [jarA]).1.sign.fs
      (freshTempName 0) = true :=
  ⟨rfl, rfl⟩

/-- C10 amended: temporary files are never deleted on any exit path of the
entry loop — the modelled filesystem after the loop is the filesystem
before it with zero or more files written on top, so every file present
before (in particular every materialized temp file) is still present
after, whether the loop succeeds or fails. -/
theorem c10_fs_only_grows (env : ToolEnv) (cfg : Config) (es : EntryState)
    (entries : List ZipEntry) :
    FsExtends es.sign.fs (processEntries env cfg es entries).1.sign.fs :=
  processEntries_fs env cfg entries es

/-- C3 counterexample: an archive holding the directory entry `docs/` and
the file `readme.txt` is transformed without error, but the output entry
name sequence omits the directory entry, differing from the input
sequence. -/
theorem c3_dir_entry_dropped :
    (processEntries envAllOk cfg0 (initEntryState initialRunState) [dirE, txtE]).2 =
      Except.ok () ∧
    (processEntries envAllOk cfg0 (initEntryState initialRunState)
        [dirE, txtE]).1.out.map Prod.fst ≠ [dirE.filename, txtE.filename] := by
  refine ⟨rfl, ?_⟩
  decide

/-- C5 counterexample: with a tool environment whose jarsigner exits with
status 1, transforming an archive holding `readme.txt` and `lib/a.jar`
raises the fatal `AssertionError`, yet a committed destination archive for
that input is left in the destination directory (the `with` statement
closes the partially written `ZipFile`, finalizing it with the entries
written before the failure). -/
theorem c5_partial_archive_committed :
    (archiveWithBody envJarFails cfg0 initialRunState "a.zip" [txtE, jarA]).1.dstFiles =
      [("a.zip", [("readme.txt", [9])])] ∧
    (archiveWithBody envJarFails cfg0 initialRunState "a.zip" [txtE, jarA]).2 =
      Except.error (PyError.assertionError (toolErrorMsg "a.jar"
        { returncode := 1, stdout := "boom" })) := by
  refine ⟨rfl, ?_⟩
  rfl

/-- C8 counterexample: in `envDotnet` the initial `signtool verify` probe
on the unsigned file `tmp0` returns a non-zero exit status, yet
`sign_dotnet_library` raises no error at all: it proceeds through sign,
timestamp and the second verify (four tool invocations) and returns
successfully — so not every non-zero tool status raises a fatal error. -/
theorem c8_probe_verify_nonzero_not_fatal :
    (envDotnet.result (signtoolVerifyCmd "signtool" "tmp0")
        (fsGet dotnetProbeState.fs "tmp0")).returncode ≠ 0 ∧
    (sign_dotnet_library envDotnet dotnetProbeState ⟨"tmp0"⟩ "s.dll"
        "signtool" "ks.p12" "codesigning" "http://tsa").2 = Except.ok ⟨"tmp0"⟩ ∧
    (sign_dotnet_library envDotnet dotnetProbeState ⟨"tmp0"⟩ "s.dll"
        "signtool" "ks.p12" "codesigning" "http://tsa").1.calls.length = 4 := by
  refine ⟨by decide, rfl, rfl⟩

/-- C6: for every `.dll` entry whose CRC is not in the cache, the entry
loop raises `TypeError` at the line-146 call (seven positional arguments
against six declared parameters) with no subprocess invoked: the call log
is unchanged. -/
theorem c6_dll_call_arity_type_error (env : ToolEnv) (cfg : Config) (es : EntryState)
    (e : ZipEntry) (hd : e.is_dir = false) (hdll : is_dotnet_library e.filename = true)
    (hc : cacheGet es.cache e.CRC = none) :
    ∃ es₁, processEntry env cfg es e = (es₁, Except.error (PyError.typeError dotnetArityMsg)) ∧
      es₁.sign.calls = es.sign.calls := by
  have hsfx : pySuffix e.filename = ".dll" := by
    have := hdll
    unfold is_dotnet_library at this
    exact eq_of_beq this
  have hjar : is_java_library e.filename = false := by
    unfold is_java_library
    rw [hsfx]
    decide
  refine ⟨{ es with sign := { es.sign with
      fs := fsSet es.sign.fs (freshTempName es.tmp) e.content }, tmp := es.tmp + 1 }, ?_, rfl⟩
  unfold processEntry
  rw [hd, hjar, hdll, hc]
  simp only [Bool.false_eq_true, if_false, Bool.false_or, if_true,
    call_sign_dotnet_library_eq]

/-- Witness for C6 at the concrete `.dll` entry `bin/s.dll`. -/
theorem c6_dll_call_arity_type_error_witness :
    ∃ es₁, processEntry envAllOk cfg0 (initEntryState initialRunState) dllE =
        (es₁, Except.error (PyError.typeError dotnetArityMsg)) ∧
      es₁.sign.calls = (initEntryState initialRunState).sign.calls :=
  c6_dll_call_arity_type_error envAllOk cfg0 (initEntryState initialRunState) dllE
    (by decide) (by decide) (by decide)

/-- C4: whenever the initial `signtool verify` probe reports exit status 0
(and, as verification does, leaves the file content unchanged),
`sign_dotnet_library` performs no further tool invocation — in particular
neither sign nor timestamp — leaves every file's content as it was, emits
exactly the already-signed warning, and returns the artifact. -/
theorem c4_already_signed_idempotent (env : ToolEnv) (st : SignState) (lib : TempFile)
    (name sp kp ka tu : String)
    (h0 : (env.result (signtoolVerifyCmd sp lib.name) (fsGet st.fs lib.name)).returncode = 0)
    (h1 : env.effect (signtoolVerifyCmd sp lib.name) (fsGet st.fs lib.name) =
      fsGet st.fs lib.name) :
    ∃ st', sign_dotnet_library env st lib name sp kp ka tu = (st', Except.ok lib) ∧
      st'.calls = st.calls ++ [signtoolVerifyCmd sp lib.name] ∧
      (∀ n, fsGet st'.fs n = fsGet st.fs n) ∧
      st'.warns = st.warns ++ [alreadySignedWarning name] := by
  refine ⟨{ fs := fsSet st.fs lib.name
              (env.effect (signtoolVerifyCmd sp lib.name) (fsGet st.fs lib.name)),
            calls := st.calls ++ [signtoolVerifyCmd sp lib.name],
            warns := st.warns ++ [alreadySignedWarning name] }, ?_, rfl, ?_, rfl⟩
  · unfold sign_dotnet_library runTool
    dsimp only
    rw [if_neg (fun hcon => hcon h0)]
  · intro n
    by_cases hn : lib.name = n
    · subst hn
      simp [fsGet, fsSet, h1]
    · simp [fsGet, fsSet, hn]

/-- Witness for C4: in `envAllOk` the probe verify reports status 0 and the
signer makes no further invocation. -/
theorem c4_already_signed_idempotent_witness :
    ∃ st', sign_dotnet_library envAllOk dotnetProbeState ⟨"tmp0"⟩ "s.dll"
        "signtool" "ks.p12" "codesigning" "http://tsa" = (st', Except.ok ⟨"tmp0"⟩) ∧
      st'.calls = dotnetProbeState.calls ++ [signtoolVerifyCmd "signtool" "tmp0"] ∧
      (∀ n, fsGet st'.fs n = fsGet dotnetProbeState.fs n) ∧
      st'.warns = dotnetProbeState.warns ++ [alreadySignedWarning "s.dll"] :=
  c4_already_signed_idempotent envAllOk dotnetProbeState ⟨"tmp0"⟩ "s.dll"
    "signtool" "ks.p12" "codesigning" "http://tsa" (by decide) rfl

/-- C8 amended: every tool result that is checked through
`assert_external_toolresult` follows the claimed policy — non-zero status
raises the fatal `AssertionError`, zero status with the expected marker
passes silently, zero status without the marker only produces a warning;
but the `.dll` signer's initial verify is exempt: a non-zero probe status
raises nothing and instead routes into the signing command, which is the
very next tool invocation. -/
theorem c8_toolresult_policy :
    (∀ (name : String) (r : ToolResult) (expected : String),
      (r.returncode ≠ 0 → assert_external_toolresult name r expected =
          Except.error (PyError.assertionError (toolErrorMsg name r))) ∧
      (r.returncode = 0 → containsSub r.stdout expected = true →
        assert_external_toolresult name r expected = Except.ok []) ∧
      (r.returncode = 0 → containsSub r.stdout expected = false →
        assert_external_toolresult name r expected = Except.ok [toolWarnMsg name r])) ∧
    (∀ (env : ToolEnv) (st : SignState) (lib : TempFile) (name sp kp ka tu : String),
      (env.result (signtoolVerifyCmd sp lib.name) (fsGet st.fs lib.name)).returncode ≠ 0 →
      ∃ st' r rest, sign_dotnet_library env st lib name sp kp ka tu = (st', r) ∧
        st'.calls = (st.calls ++ [signtoolVerifyCmd sp lib.name,
          signtoolSignCmd sp kp ka lib.name]) ++ rest) := by
  constructor
  · intro name r expected
    unfold assert_external_toolresult
    refine ⟨fun h => ?_, fun h hm => ?_, fun h hm => ?_⟩
    · rw [if_pos h]
    · rw [if_neg (fun hcon => hcon h), if_pos hm]
    · rw [if_neg (fun hcon => hcon h), if_neg (by simp [hm])]
  · intro env st lib name sp kp ka tu h
    unfold sign_dotnet_library runTool
    dsimp only
    rw [if_pos h]
    split
    · exact ⟨_, _, [], rfl, by simp⟩
    · split
      · exact ⟨_, _, [signtoolTimestampCmd sp tu lib.name], rfl, by simp⟩
      · split
        · exact ⟨_, _, [signtoolTimestampCmd sp tu lib.name,
            signtoolVerifyCmd sp lib.name], rfl, by simp⟩
        · exact ⟨_, _, [signtoolTimestampCmd sp tu lib.name,
            signtoolVerifyCmd sp lib.name], rfl, by simp⟩

/-- Witness for C8 amended: a concrete non-zero tool result is rejected
with the fatal error. -/
theorem c8_toolresult_policy_witness :
    assert_external_toolresult "a.jar" { returncode := 1, stdout := "boom" } "jar signed" =
      Except.error (PyError.assertionError
        (toolErrorMsg "a.jar" { returncode := 1, stdout := "boom" })) :=
  (c8_toolresult_policy.1 "a.jar" { returncode := 1, stdout := "boom" } "jar signed").1
    (by decide)

/-- Auxiliary: on a successful run of one entry, either the entry is a
directory and nothing is written, or exactly one pair satisfying
`entryWrites` is appended to the output. -/
theorem processEntry_ok_out (env : ToolEnv) (cfg : Config) (es : EntryState) (e : ZipEntry)
    (es₁ : EntryState) (h : processEntry env cfg es e = (es₁, Except.ok ())) :
    (e.is_dir = true ∧ es₁.out = es.out) ∨
    (e.is_dir = false ∧ ∃ p, es₁.out = es.out ++ [p] ∧ entryWrites e p) := by
  unfold processEntry at h
  cases hd : e.is_dir with
  | true =>
    rw [hd] at h
    simp only [if_true] at h
    left
    refine ⟨rfl, ?_⟩
    cases h
    rfl
  | false =>
    rw [hd] at h
    simp only [Bool.false_eq_true, if_false] at h
    right
    refine ⟨rfl, ?_⟩
    cases hs : (is_java_library e.filename || is_dotnet_library e.filename) with
    | false =>
      rw [hs] at h
      simp only [Bool.false_eq_true, if_false] at h
      cases h
      exact ⟨(e.filename, e.content), rfl, rfl, fun _ _ => rfl⟩
    | true =>
      rw [hs] at h
      simp only [if_true] at h
      have hsn : ∀ q : String × Bytes, q.1 = e.filename → entryWrites e q := by
        intro q hq
        refine ⟨hq, fun hj hn => ?_⟩
        rw [hj, hn] at hs
        cases hs
      cases hc : cacheGet es.cache e.CRC with
      | some library =>
        rw [hc] at h
        cases h
        exact ⟨_, rfl, hsn _ rfl⟩
      | none =>
        rw [hc] at h
        dsimp only at h
        split at h
        · cases h
        · cases h
          exact ⟨_, rfl, hsn _ rfl⟩

/-- Auxiliary: a successful run of the entry loop appends, for the
non-directory entries in order, one output pair each, every pair
satisfying `entryWrites`. -/
theorem processEntries_ok_out (env : ToolEnv) (cfg : Config) :
    ∀ (entries : List ZipEntry) (es es' : EntryState),
    processEntries env cfg es entries = (es', Except.ok ()) →
    ∃ outs, es'.out = es.out ++ outs ∧
      List.Forall₂ entryWrites (entries.filter (fun e => !e.is_dir)) outs := by
  intro entries
  induction entries with
  | nil =>
    intro es es' h
    cases h
    exact ⟨[], (List.append_nil es.out).symm, List.Forall₂.nil⟩
  | cons e rest ih =>
    intro es es' h
    unfold processEntries at h
    cases hpe : processEntry env cfg es e with
    | mk es₁ r =>
      rw [hpe] at h
      cases r with
      | error err => cases h
      | ok u =>
        cases u
        obtain ⟨outs, ho, hf⟩ := ih es₁ es' h
        rcases processEntry_ok_out env cfg es e es₁ hpe with ⟨hd, he⟩ | ⟨hd, p, hp, hw⟩
        · refine ⟨outs, by rw [ho, he], ?_⟩
          rw [List.filter_cons_of_neg (by simp [hd])]
          exact hf
        · refine ⟨p :: outs, by rw [ho, hp, List.append_assoc, List.singleton_append], ?_⟩
          rw [List.filter_cons_of_pos (by simp [hd])]
          exact List.Forall₂.cons hw hf

/-- Auxiliary: the written names are the filtered entry names. -/
theorem forall₂_entryWrites_names {l : List ZipEntry} {outs : List (String × Bytes)}
    (h : List.Forall₂ entryWrites l outs) :
    outs.map Prod.fst = l.map ZipEntry.filename := by
  induction h with
  | nil => rfl
  | cons h₁ _ ih => simp only [List.map_cons, h₁.1, ih]

/-- C3 amended: when the entry loop for one archive completes without
error, the sequence of entry names written to the destination equals the
sequence of NON-directory entry names of the source, in order; directory
entries are skipped by line 135 and never appear in the destination. -/
theorem c3_nondir_order_preserved (env : ToolEnv) (cfg : Config) (es es' : EntryState)
    (entries : List ZipEntry) (h : processEntries env cfg es entries = (es', Except.ok ()))
    (h0 : es.out = []) :
    es'.out.map Prod.fst = (entries.filter (fun e => !e.is_dir)).map ZipEntry.filename := by
  obtain ⟨outs, ho, hf⟩ := processEntries_ok_out env cfg entries es es' h
  rw [ho, h0, List.nil_append]
  exact forall₂_entryWrites_names hf

/-- Witness for C3 amended on a concrete archive. -/
theorem c3_nondir_order_preserved_witness :
    (processEntries envAllOk cfg0 (initEntryState initialRunState)
        [dirE, txtE, jarA]).1.out.map Prod.fst =
      ([dirE, txtE, jarA].filter (fun e => !e.is_dir)).map ZipEntry.filename :=
  c3_nondir_order_preserved envAllOk cfg0 (initEntryState initialRunState) _
    [dirE, txtE, jarA] rfl rfl

/-- C7: whenever the entry loop completes without error, each position of
the output corresponds to the non-directory source entry at the same
position, and for every non-signable entry (neither `.jar` nor `.dll`,
case sensitively) the written pair is exactly the source entry's
name and unmodified bytes. -/
theorem c7_passthrough (env : ToolEnv) (cfg : Config) (es es' : EntryState)
    (entries : List ZipEntry) (h : processEntries env cfg es entries = (es', Except.ok ()))
    (h0 : es.out = []) :
    ∀ i (hi : i < (entries.filter (fun e => !e.is_dir)).length)
      (hj : i < es'.out.length),
      is_java_library ((entries.filter (fun e => !e.is_dir)).get ⟨i, hi⟩).filename = false →
      is_dotnet_library ((entries.filter (fun e => !e.is_dir)).get ⟨i, hi⟩).filename = false →
      es'.out.get ⟨i, hj⟩ = (((entries.filter (fun e => !e.is_dir)).get ⟨i, hi⟩).filename,
        ((entries.filter (fun e => !e.is_dir)).get ⟨i, hi⟩).content) := by
  obtain ⟨outs, ho, hf⟩ := processEntries_ok_out env cfg entries es es' h
  have hout : es'.out = outs := by rw [ho, h0, List.nil_append]
  subst hout
  intro i hi hj hjav hnet
  obtain ⟨p₁, p₂⟩ := (List.forall₂_iff_get.mp hf).2 i hi hj
  refine Prod.ext ?_ ?_
  · exact p₁
  · exact p₂ hjav hnet

/-- Witness for C7: the concrete `readme.txt` entry is copied verbatim. -/
theorem c7_passthrough_witness :
    (processEntries envAllOk cfg0 (initEntryState initialRunState)
        [dirE, txtE, jarA]).1.out.get ⟨0, by decide⟩ = ("readme.txt", [9]) :=
  c7_passthrough envAllOk cfg0 (initEntryState initialRunState) _
    [dirE, txtE, jarA] rfl rfl 0 (by decide) (by decide) (by decide) (by decide)

/-- C5 amended: when the jarsigner signing step for a fresh `.jar` entry
returns a non-zero status, the fatal `AssertionError` propagates out of
the archive's `with` block uncaught — terminating the run at the batch
boundary — but the destination archive is NOT deleted: the context
manager closes it, committing into the destination directory a partial
archive holding the entries written before the failure. -/
theorem c5_failfast_amended (env : ToolEnv) (cfg : Config) (rs : RunState) (name : String)
    (e₀ e₁ : ZipEntry)
    (hd₀ : e₀.is_dir = false) (hj₀ : is_java_library e₀.filename = false)
    (hn₀ : is_dotnet_library e₀.filename = false)
    (hd₁ : e₁.is_dir = false) (hj₁ : is_java_library e₁.filename = true)
    (hc : cacheGet rs.cache e₁.CRC = none)
    (hf : (env.result (jarsignerSignCmd cfg.jarsigner cfg.keystore cfg.password cfg.tsa
        (freshTempName rs.tmp) cfg.keyAlias) e₁.content).returncode ≠ 0) :
    ∃ st, archiveWithBody env cfg rs name [e₀, e₁] =
      ({ rs with sign := st, tmp := rs.tmp + 1,
                 dstFiles := rs.dstFiles ++ [(name, [(e₀.filename, e₀.content)])] },
       Except.error (PyError.assertionError (toolErrorMsg (pyName e₁.filename)
         (env.result (jarsignerSignCmd cfg.jarsigner cfg.keystore cfg.password cfg.tsa
           (freshTempName rs.tmp) cfg.keyAlias) e₁.content)))) := by
  have h₀ : processEntry env cfg (initEntryState rs) e₀ =
      ({ initEntryState rs with out := [(e₀.filename, e₀.content)] }, Except.ok ()) := by
    unfold processEntry
    rw [hd₀, hj₀, hn₀]
    simp [initEntryState]
  have h₁ : ∃ st, processEntry env cfg
      { initEntryState rs with out := [(e₀.filename, e₀.content)] } e₁ =
      ({ initEntryState rs with
          out := [(e₀.filename, e₀.content)],
          sign := st, tmp := rs.tmp + 1 },
       Except.error (PyError.assertionError (toolErrorMsg (pyName e₁.filename)
         (env.result (jarsignerSignCmd cfg.jarsigner cfg.keystore cfg.password cfg.tsa
           (freshTempName rs.tmp) cfg.keyAlias) e₁.content)))) := by
    unfold processEntry
    rw [hd₁, hj₁]
    dsimp only [initEntryState]
    rw [hc]
    unfold sign_java_library runTool
    dsimp only
    rw [show fsGet (fsSet rs.sign.fs (freshTempName rs.tmp) e₁.content)
          (freshTempName rs.tmp) = e₁.content from by simp [fsGet, fsSet]]
    rw [show assert_external_toolresult (pyName e₁.filename)
          (env.result (jarsignerSignCmd cfg.jarsigner cfg.keystore cfg.password cfg.tsa
            (freshTempName rs.tmp) cfg.keyAlias) e₁.content) "jar signed" =
          Except.error (PyError.assertionError (toolErrorMsg (pyName e₁.filename)
            (env.result (jarsignerSignCmd cfg.jarsigner cfg.keystore cfg.password cfg.tsa
              (freshTempName rs.tmp) cfg.keyAlias) e₁.content)))
        from by unfold assert_external_toolresult; rw [if_pos hf]]
    exact ⟨_, rfl⟩
  obtain ⟨st, h₁⟩ := h₁
  refine ⟨st, ?_⟩
  unfold archiveWithBody processEntries
  rw [h₀]
  dsimp only
  unfold processEntries
  rw [h₁]
  rfl

/-- Witness for C5 amended at a concrete failing environment. -/
theorem c5_failfast_amended_witness :
    ∃ st, archiveWithBody envJarFails cfg0 initialRunState "a.zip" [txtE, jarA] =
      ({ initialRunState with
          sign := st, tmp := initialRunState.tmp + 1,
          dstFiles := initialRunState.dstFiles ++
            [("a.zip", [(txtE.filename, txtE.content)])] },
       Except.error (PyError.assertionError (toolErrorMsg (pyName jarA.filename)
         (envJarFails.result (jarsignerSignCmd cfg0.jarsigner cfg0.keystore cfg0.password
           cfg0.tsa (freshTempName initialRunState.tmp) cfg0.keyAlias) jarA.content)))) :=
  c5_failfast_amended envJarFails cfg0 initialRunState "a.zip" txtE jarA
    (by decide) (by decide) (by decide) (by decide) (by decide) rfl (by decide)

end Signcode
